import Mathlib

/-!
Shallow embedding of the mcp-agent-framework routing core
(`src/mcp_framework/core/protocol.py` and `src/mcp_framework/core/router.py`).

Python enums become inductive types; dataclasses become structures; the mutable
health registry (`MCPRouter.model_health`, a dict keyed by every `ModelType`)
becomes an explicit total function `ModelType → Bool` passed to each operation;
Python floats that are only constructed and compared (temperature, trait
scores, latency) are modelled as rationals; `datetime` values are modelled at
the resolution of their ISO-8601 rendering, i.e. as the rendered string;
`Dict[str, Any]` metadata payloads are modelled as association lists of
strings. Python truthiness on `Optional[int]` fields (`None` and `0` are both
falsy) is embedded explicitly where the source relies on it.
-/

set_option autoImplicit false

namespace MCP

/-- `ModelType` enum from protocol.py. -/
inductive ModelType where
  | GPT4
  | GPT35_TURBO
  | CLAUDE_3_OPUS
  | CLAUDE_3_SONNET
  | GEMINI_PRO
  | EMBEDDING
  deriving DecidableEq, Repr

/-- `.value` of each `ModelType` member. -/
def model_value : ModelType → String
  | .GPT4 => "gpt-4"
  | .GPT35_TURBO => "gpt-3.5-turbo"
  | .CLAUDE_3_OPUS => "claude-3-opus"
  | .CLAUDE_3_SONNET => "claude-3-sonnet"
  | .GEMINI_PRO => "gemini-pro"
  | .EMBEDDING => "text-embedding-3-small"

/-- `TaskType` enum from protocol.py. -/
inductive TaskType where
  | CREATIVE
  | REASONING
  | CLASSIFICATION
  | EXTRACTION
  | SUMMARIZATION
  | EMBEDDING
  | GENERAL
  deriving DecidableEq, Repr

/-- `.value` of each `TaskType` member. -/
def task_value : TaskType → String
  | .CREATIVE => "creative"
  | .REASONING => "reasoning"
  | .CLASSIFICATION => "classification"
  | .EXTRACTION => "extraction"
  | .SUMMARIZATION => "summarization"
  | .EMBEDDING => "embedding"
  | .GENERAL => "general"

/-- `MCPPriority` enum from protocol.py. -/
inductive MCPPriority where
  | LOW
  | NORMAL
  | HIGH
  | CRITICAL
  deriving DecidableEq, Repr

/-- `.value` of each `MCPPriority` member. -/
def priority_value : MCPPriority → Int
  | .LOW => 0
  | .NORMAL => 1
  | .HIGH => 2
  | .CRITICAL => 3

/-- One entry of `MCPContext.history` (a dict with role/content/model/timestamp). -/
structure HistoryEntry where
  role : String
  content : String
  model : Option String
  timestamp : String
  deriving DecidableEq, Repr

/-- `MCPContext` dataclass from protocol.py. `shared_memory` and `metadata`
hold arbitrary values in the source; they are modelled as string association
lists since none of the routing code inspects them. -/
structure MCPContext where
  conversation_id : String
  session_id : Option String := none
  history : List HistoryEntry := []
  shared_memory : List (String × String) := []
  metadata : List (String × String) := []
  deriving DecidableEq, Repr

/-- A `datetime` value at the resolution of its ISO-8601 rendering:
`datetime.isoformat` is injective at microsecond resolution, so the value is
modelled by the rendered string itself. -/
structure DateTime where
  iso : String
  deriving DecidableEq, Repr

/-- `datetime.isoformat()`. -/
def DateTime.isoformat (d : DateTime) : String := d.iso

/-- `MCPRequest` dataclass from protocol.py (state after construction). -/
structure MCPRequest where
  request_id : String
  content : String := ""
  task_type : TaskType := .GENERAL
  model : Option ModelType := none
  priority : MCPPriority := .NORMAL
  require_reasoning : Bool := false
  require_creativity : Bool := false
  max_tokens : Option Int := none
  temperature : ℚ := 7/10
  context : Option MCPContext := none
  use_context : Bool := true
  cache_enabled : Bool := true
  cache_ttl : Int := 3600
  agent_name : Option String := none
  timestamp : DateTime
  metadata : List (String × String) := []
  deriving DecidableEq, Repr

/-- `MCPResponse` dataclass from protocol.py. -/
structure MCPResponse where
  request_id : String
  content : String
  model_used : ModelType
  success : Bool := true
  latency_ms : ℚ := 0
  tokens_used : Int := 0
  cached : Bool := false
  context : Option MCPContext := none
  error : Option String := none
  fallback_used : Bool := false
  fallback_model : Option ModelType := none
  timestamp : DateTime
  metadata : List (String × String) := []
  deriving DecidableEq, Repr

/-- Python truthiness of an `Optional[int]`: `None` and `0` are falsy. -/
def opt_int_truthy : Option Int → Bool
  | none => false
  | some n => n != 0

/-- The health registry state: `MCPRouter.model_health` is a dict keyed by
every `ModelType` (seeded to `True`), so a state is a total boolean map. -/
def Health : Type := ModelType → Bool

/-- `MCPRouter.is_model_healthy`: `self.model_health.get(model, False)`; the
dict always holds every `ModelType`, so this is a plain lookup. -/
def is_model_healthy (health : Health) (model : ModelType) : Bool :=
  health model

/-- One entry of `MCPRouter.MODEL_CAPABILITIES`. -/
structure Capability where
  tasks : List TaskType
  creativity : ℚ
  reasoning : ℚ
  speed : ℚ
  context_window : Int
  deriving DecidableEq, Repr

/-- `MCPRouter.MODEL_CAPABILITIES.get(model)`: the dict literal covers every
`ModelType`, so the lookup is `some` on each member. -/
def capabilities_get : ModelType → Option Capability
  | .GPT4 => some
      { tasks := [.CREATIVE, .REASONING, .SUMMARIZATION, .GENERAL],
        creativity := 9/10, reasoning := 95/100, speed := 5/10,
        context_window := 128000 }
  | .GPT35_TURBO => some
      { tasks := [.CLASSIFICATION, .EXTRACTION, .GENERAL],
        creativity := 7/10, reasoning := 7/10, speed := 9/10,
        context_window := 16384 }
  | .CLAUDE_3_OPUS => some
      { tasks := [.REASONING, .CREATIVE, .SUMMARIZATION],
        creativity := 95/100, reasoning := 95/100, speed := 4/10,
        context_window := 200000 }
  | .CLAUDE_3_SONNET => some
      { tasks := [.CLASSIFICATION, .EXTRACTION, .REASONING],
        creativity := 8/10, reasoning := 85/100, speed := 8/10,
        context_window := 200000 }
  | .GEMINI_PRO => some
      { tasks := [.CREATIVE, .REASONING, .GENERAL],
        creativity := 85/100, reasoning := 85/100, speed := 7/10,
        context_window := 1000000 }
  | .EMBEDDING => some
      { tasks := [.EMBEDDING],
        creativity := 0, reasoning := 0, speed := 1,
        context_window := 8191 }

/-- `MCPRouter._intelligent_selection`: the heuristic if/elif ladder. -/
def intelligent_selection (request : MCPRequest) : ModelType :=
  if request.require_creativity then ModelType.GPT4
  else if request.require_reasoning then ModelType.CLAUDE_3_OPUS
  else match request.task_type with
    | .CREATIVE => ModelType.GPT4
    | .REASONING => ModelType.CLAUDE_3_OPUS
    | .CLASSIFICATION => ModelType.GPT35_TURBO
    | .EXTRACTION =>
        if request.content.length > 2000 then ModelType.CLAUDE_3_SONNET
        else ModelType.GPT35_TURBO
    | .SUMMARIZATION => ModelType.GEMINI_PRO
    | _ => ModelType.GPT35_TURBO

/-- `MCPRouter.select_model`: healthy explicit override first; an unhealthy
override only logs and falls through; then the embedding rule; then the
heuristic ladder. `if request.model:` is truthy iff the field is not `None`. -/
def select_model (health : Health) (request : MCPRequest) : ModelType :=
  match request.model with
  | some m =>
      if is_model_healthy health m then m
      else if request.task_type = TaskType.EMBEDDING then ModelType.EMBEDDING
      else intelligent_selection request
  | none =>
      if request.task_type = TaskType.EMBEDDING then ModelType.EMBEDDING
      else intelligent_selection request

/-- The `fallback_map` dict literal inside `MCPRouter.get_fallback_model`. -/
def fallback_map : ModelType → Option ModelType
  | .GPT4 => some .CLAUDE_3_OPUS
  | .GPT35_TURBO => some .CLAUDE_3_SONNET
  | .CLAUDE_3_OPUS => some .GPT4
  | .CLAUDE_3_SONNET => some .GPT35_TURBO
  | .GEMINI_PRO => some .GPT4
  | .EMBEDDING => none

/-- `MCPRouter.get_fallback_model`: `if fallback and is_model_healthy(fallback)`
— an enum member is always truthy, so the guard is `fallback is not None`. -/
def get_fallback_model (health : Health) (primary_model : ModelType) :
    Option ModelType :=
  match fallback_map primary_model with
  | some fallback =>
      if is_model_healthy health fallback then some fallback else none
  | none => none

/-- `MCPRouter.validate_routing_decision`. The task-compatibility check only
logs a warning; `if request.max_tokens and request.max_tokens > ...` uses
Python truthiness (`None` and `0` both skip the branch). -/
def validate_routing_decision (health : Health) (request : MCPRequest)
    (selected_model : ModelType) : Bool × Option String :=
  if is_model_healthy health selected_model = false then
    (false, some ("Selected model " ++ model_value selected_model ++
      " is unhealthy"))
  else
    match capabilities_get selected_model with
    | none => (false, some ("Unknown model " ++ model_value selected_model))
    | some capabilities =>
        if opt_int_truthy request.max_tokens &&
            decide (request.max_tokens.getD 0 > capabilities.context_window)
        then
          (false, some ("Request max_tokens (" ++
            toString (request.max_tokens.getD 0) ++
            ") exceeds context window (" ++
            toString capabilities.context_window ++ ")"))
        else (true, none)

/-- `MCPProtocolValidator.validate_request`. `not request.content` is truthy
iff the string is empty; the `max_tokens` guard uses Python truthiness. -/
def validate_request (request : MCPRequest) : Bool × Option String :=
  if request.content = "" && !(request.task_type = TaskType.EMBEDDING) then
    (false, some "Request content cannot be empty")
  else if opt_int_truthy request.max_tokens &&
      decide (request.max_tokens.getD 0 ≤ 0) then
    (false, some "max_tokens must be positive")
  else if !(0 ≤ request.temperature ∧ request.temperature ≤ 2) then
    (false, some "temperature must be between 0 and 2.0")
  else if request.cache_ttl < 0 then
    (false, some "cache_ttl cannot be negative")
  else (true, none)

/-- `MCPProtocolValidator.validate_response`. -/
def validate_response (response : MCPResponse) : Bool × Option String :=
  if !response.success && (response.error.getD "") = "" then
    (false, some "Failed response must include error message")
  else if response.latency_ms < 0 then
    (false, some "latency_ms cannot be negative")
  else if response.tokens_used < 0 then
    (false, some "tokens_used cannot be negative")
  else (true, none)

/-- A value of the transport dictionary produced by the `to_dict` methods:
strings, enum tags (strings), ints, floats (rationals), booleans, `None`,
and nested metadata dicts. -/
inductive DVal where
  | str : String → DVal
  | int : Int → DVal
  | rat : ℚ → DVal
  | bool : Bool → DVal
  | null : DVal
  | dict : List (String × String) → DVal
  deriving DecidableEq, Repr

/-- `MCPRequest.to_dict`: the exact key set and order of the source; note it
does not emit `context` or `use_context`. -/
def MCPRequest.to_dict (r : MCPRequest) : List (String × DVal) :=
  [("request_id", .str r.request_id),
   ("content", .str r.content),
   ("task_type", .str (task_value r.task_type)),
   ("model", match r.model with | some m => .str (model_value m) | none => .null),
   ("priority", .int (priority_value r.priority)),
   ("require_reasoning", .bool r.require_reasoning),
   ("require_creativity", .bool r.require_creativity),
   ("max_tokens", match r.max_tokens with | some n => .int n | none => .null),
   ("temperature", .rat r.temperature),
   ("cache_enabled", .bool r.cache_enabled),
   ("cache_ttl", .int r.cache_ttl),
   ("agent_name", match r.agent_name with | some a => .str a | none => .null),
   ("timestamp", .str r.timestamp.isoformat),
   ("metadata", .dict r.metadata)]

/-- `MCPResponse.to_dict`: the exact key set and order of the source; note it
does not emit `context`. -/
def MCPResponse.to_dict (r : MCPResponse) : List (String × DVal) :=
  [("request_id", .str r.request_id),
   ("content", .str r.content),
   ("model_used", .str (model_value r.model_used)),
   ("success", .bool r.success),
   ("latency_ms", .rat r.latency_ms),
   ("tokens_used", .int r.tokens_used),
   ("cached", .bool r.cached),
   ("error", match r.error with | some e => .str e | none => .null),
   ("fallback_used", .bool r.fallback_used),
   ("fallback_model",
     match r.fallback_model with | some m => .str (model_value m) | none => .null),
   ("timestamp", .str r.timestamp.isoformat),
   ("metadata", .dict r.metadata)]

/-- Inverse of `task_value` on the emitted tags. -/
def task_of_value (s : String) : Option TaskType :=
  if s = "creative" then some .CREATIVE
  else if s = "reasoning" then some .REASONING
  else if s = "classification" then some .CLASSIFICATION
  else if s = "extraction" then some .EXTRACTION
  else if s = "summarization" then some .SUMMARIZATION
  else if s = "embedding" then some .EMBEDDING
  else if s = "general" then some .GENERAL
  else none

/-- Inverse of `model_value` on the emitted tags. -/
def model_of_value (s : String) : Option ModelType :=
  if s = "gpt-4" then some .GPT4
  else if s = "gpt-3.5-turbo" then some .GPT35_TURBO
  else if s = "claude-3-opus" then some .CLAUDE_3_OPUS
  else if s = "claude-3-sonnet" then some .CLAUDE_3_SONNET
  else if s = "gemini-pro" then some .GEMINI_PRO
  else if s = "text-embedding-3-small" then some .EMBEDDING
  else none

/-- Inverse of `priority_value` on the emitted values. -/
def priority_of_value (n : Int) : Option MCPPriority :=
  if n = 0 then some .LOW
  else if n = 1 then some .NORMAL
  else if n = 2 then some .HIGH
  else if n = 3 then some .CRITICAL
  else none

/-- Look up a key in a transport dictionary (first occurrence). -/
def dget : List (String × DVal) → String → Option DVal
  | [], _ => none
  | (k2, v) :: rest, k => if k2 = k then some v else dget rest k

/-- Read a string-valued field. -/
def as_str : Option DVal → Option String
  | some (DVal.str s) => some s
  | _ => none

/-- Read an int-valued field. -/
def as_int : Option DVal → Option Int
  | some (DVal.int n) => some n
  | _ => none

/-- Read a float-valued field. -/
def as_rat : Option DVal → Option ℚ
  | some (DVal.rat q) => some q
  | _ => none

/-- Read a boolean-valued field. -/
def as_bool : Option DVal → Option Bool
  | some (DVal.bool b) => some b
  | _ => none

/-- Read a metadata-dict-valued field. -/
def as_dict : Option DVal → Option (List (String × String))
  | some (DVal.dict m) => some m
  | _ => none

/-- Read an optional backend field (`null` or a backend tag string). -/
def as_opt_model : Option DVal → Option (Option ModelType)
  | some DVal.null => some none
  | some (DVal.str s) => (model_of_value s).map some
  | _ => none

/-- Read an optional integer field (`null` or an int). -/
def as_opt_int : Option DVal → Option (Option Int)
  | some DVal.null => some none
  | some (DVal.int n) => some (some n)
  | _ => none

/-- Read an optional string field (`null` or a string). -/
def as_opt_str : Option DVal → Option (Option String)
  | some DVal.null => some none
  | some (DVal.str s) => some (some s)
  | _ => none

/-- Modelled from the spec: the repository defines serialization (`to_dict`)
but no deserializer; spec section 6 fixes the transport envelope shape
field-for-field, with enum values as lowercase string tags and timestamps as
ISO-8601 strings, from which this inverse is modelled. Fields absent from the
transport shape (`context`, `use_context`) take their construction defaults. -/
def MCPRequest.from_dict (d : List (String × DVal)) : Option MCPRequest := do
  let rid ← as_str (dget d "request_id")
  let c ← as_str (dget d "content")
  let t ← (as_str (dget d "task_type")).bind task_of_value
  let m ← as_opt_model (dget d "model")
  let p ← (as_int (dget d "priority")).bind priority_of_value
  let rr ← as_bool (dget d "require_reasoning")
  let rc ← as_bool (dget d "require_creativity")
  let mt ← as_opt_int (dget d "max_tokens")
  let temp ← as_rat (dget d "temperature")
  let ce ← as_bool (dget d "cache_enabled")
  let ct ← as_int (dget d "cache_ttl")
  let an ← as_opt_str (dget d "agent_name")
  let ts ← as_str (dget d "timestamp")
  let md ← as_dict (dget d "metadata")
  some { request_id := rid, content := c, task_type := t, model := m,
         priority := p, require_reasoning := rr, require_creativity := rc,
         max_tokens := mt, temperature := temp, context := none,
         use_context := true, cache_enabled := ce, cache_ttl := ct,
         agent_name := an, timestamp := ⟨ts⟩, metadata := md }

/-- Modelled from the spec: deserializer for the Response transport shape,
inverse of `MCPResponse.to_dict` per spec section 6; the `context` field is
absent from the transport shape and takes its construction default. -/
def MCPResponse.from_dict (d : List (String × DVal)) : Option MCPResponse := do
  let rid ← as_str (dget d "request_id")
  let c ← as_str (dget d "content")
  let m ← (as_str (dget d "model_used")).bind model_of_value
  let sc ← as_bool (dget d "success")
  let lm ← as_rat (dget d "latency_ms")
  let tu ← as_int (dget d "tokens_used")
  let cd ← as_bool (dget d "cached")
  let er ← as_opt_str (dget d "error")
  let fu ← as_bool (dget d "fallback_used")
  let fb ← as_opt_model (dget d "fallback_model")
  let ts ← as_str (dget d "timestamp")
  let md ← as_dict (dget d "metadata")
  some { request_id := rid, content := c, model_used := m, success := sc,
         latency_ms := lm, tokens_used := tu, cached := cd, context := none,
         error := er, fallback_used := fu, fallback_model := fb,
         timestamp := ⟨ts⟩, metadata := md }

/-! Concrete inputs used by witnesses and counterexamples. -/

/-- An all-healthy registry state (the state right after `MCPRouter.__init__`). -/
def all_healthy : Health := fun _ => true

/-- A registry state where exactly `gpt-4` has been marked unhealthy. -/
def gpt4_down : Health := fun m => decide (m ≠ ModelType.GPT4)

/-- A registry state where exactly `claude-3-opus` has been marked unhealthy. -/
def opus_down : Health := fun m => decide (m ≠ ModelType.CLAUDE_3_OPUS)

/-- An embedding-task request carrying an explicit `gpt-4` override. -/
def req_embed_override : MCPRequest :=
  { request_id := "req-embed-override", content := "vectorize this",
    task_type := .EMBEDDING, model := some .GPT4, timestamp := ⟨"2026-01-01T00:00:00"⟩ }

/-- A general-task request with an explicit `gpt-4` override and the
creativity flag set. -/
def req_creative_override : MCPRequest :=
  { request_id := "req-creative-override", content := "hello",
    task_type := .GENERAL, model := some .GPT4, require_creativity := true,
    timestamp := ⟨"2026-01-01T00:00:01"⟩ }

/-- A classification-task request with an explicit `claude-3-opus` override,
with both bias flags set, to exercise override short-circuiting. -/
def req_opus_override : MCPRequest :=
  { request_id := "req-opus-override", content := "categorize",
    task_type := .CLASSIFICATION, model := some .CLAUDE_3_OPUS,
    require_creativity := true, require_reasoning := true,
    timestamp := ⟨"2026-01-01T00:00:02"⟩ }

/-- A classification-task request with the creativity flag set and no
override. -/
def req_classify_creative : MCPRequest :=
  { request_id := "req-classify-creative", content := "categorize",
    task_type := .CLASSIFICATION, require_creativity := true,
    timestamp := ⟨"2026-01-01T00:00:03"⟩ }

/-- A 2500-character content string. -/
def long_content : String := String.mk (List.replicate 2500 'a')

/-- A 500-character content string. -/
def short_content : String := String.mk (List.replicate 500 'b')

/-- An extraction-task request with 2500 characters of content. -/
def req_extract_long : MCPRequest :=
  { request_id := "req-extract-long", content := long_content,
    task_type := .EXTRACTION, timestamp := ⟨"2026-01-01T00:00:04"⟩ }

/-- An extraction-task request with 500 characters of content. -/
def req_extract_short : MCPRequest :=
  { request_id := "req-extract-short", content := short_content,
    task_type := .EXTRACTION, timestamp := ⟨"2026-01-01T00:00:05"⟩ }

/-- A request with `max_tokens = 0`, otherwise valid. -/
def req_zero_tokens : MCPRequest :=
  { request_id := "req-zero-tokens", content := "x", max_tokens := some 0,
    timestamp := ⟨"2026-01-01T00:00:06"⟩ }

/-- A classification request with `max_tokens` at the `gpt-3.5-turbo`
context-window boundary (16384). -/
def req_boundary : MCPRequest :=
  { request_id := "req-boundary", content := "x", task_type := .CLASSIFICATION,
    max_tokens := some 16384, timestamp := ⟨"2026-01-01T00:00:07"⟩ }

/-- A general-task request with neither override nor bias flags. -/
def req_plain : MCPRequest :=
  { request_id := "req-plain", content := "hi", task_type := .GENERAL,
    timestamp := ⟨"2026-01-01T00:00:08"⟩ }

/-- A shared conversation context value. -/
def ctx_c9 : MCPContext := { conversation_id := "conv-9" }

/-- A valid request holding a context with `use_context = false`. -/
def req_roundtrip_a : MCPRequest :=
  { request_id := "req-roundtrip", content := "hello", context := some ctx_c9,
    use_context := false, timestamp := ⟨"2026-01-01T00:00:09"⟩ }

/-- Identical to `req_roundtrip_a` except `use_context = true`. -/
def req_roundtrip_b : MCPRequest :=
  { req_roundtrip_a with use_context := true }

/-! Shared lemmas about the routing engine. -/

/-- When the override is absent or unhealthy and the task is not embedding,
`select_model` reduces to the heuristic ladder. -/
theorem select_model_eq_heuristic (health : Health) (request : MCPRequest)
    (hover : ∀ m, request.model = some m → health m = false)
    (htask : request.task_type ≠ TaskType.EMBEDDING) :
    select_model health request = intelligent_selection request := by
  unfold select_model
  cases hm : request.model with
  | none => simp [htask]
  | some m => simp [is_model_healthy, hover m hm, htask]

/-- The long test content has 2500 characters. -/
theorem long_content_length : long_content.length = 2500 :=
  List.length_replicate 2500 'a'

/-- The short test content has 500 characters. -/
theorem short_content_length : short_content.length = 500 :=
  List.length_replicate 500 'b'

/-- `task_of_value` inverts `task_value`. -/
theorem task_of_value_task_value (t : TaskType) :
    task_of_value (task_value t) = some t := by
  cases t <;> rfl

/-- `model_of_value` inverts `model_value`. -/
theorem model_of_value_model_value (m : ModelType) :
    model_of_value (model_value m) = some m := by
  cases m <;> rfl

/-- `priority_of_value` inverts `priority_value`. -/
theorem priority_of_value_priority_value (p : MCPPriority) :
    priority_of_value (priority_value p) = some p := by
  cases p <;> rfl

/-- The heuristic ladder never selects the embedding backend. -/
theorem intelligent_selection_ne_embedding (request : MCPRequest) :
    intelligent_selection request ≠ ModelType.EMBEDDING := by
  unfold intelligent_selection
  split
  · decide
  · split
    · decide
    · split <;> (try split) <;> decide

/-! Claim theorems. -/

/-- C1 (counterexample): an embedding-task request with a healthy explicit
`gpt-4` override makes `select_model` return `gpt-4`, not the embedding
backend, so the embedding rule does not hold regardless of overrides. -/
theorem C1_counterexample :
    req_embed_override.task_type = TaskType.EMBEDDING ∧
    req_embed_override.model = some ModelType.GPT4 ∧
    all_healthy ModelType.GPT4 = true ∧
    select_model all_healthy req_embed_override = ModelType.GPT4 ∧
    ModelType.GPT4 ≠ ModelType.EMBEDDING := by
  exact ⟨rfl, rfl, rfl, rfl, by decide⟩

/-- C1 (amended): for every request whose task type is embedding and whose
explicit override, if any, is unhealthy, `select_model` returns the embedding
backend regardless of the health state and of the content. -/
theorem C1_embedding_selected_without_healthy_override
    (health : Health) (request : MCPRequest)
    (htask : request.task_type = TaskType.EMBEDDING)
    (hover : ∀ m, request.model = some m → health m = false) :
    select_model health request = ModelType.EMBEDDING := by
  unfold select_model
  cases hm : request.model with
  | none => simp [htask]
  | some m => simp [is_model_healthy, hover m hm, htask]

/-- C1 witness: the amended rule at a concrete embedding request whose
`gpt-4` override is unhealthy. -/
theorem C1_witness :
    select_model gpt4_down req_embed_override = ModelType.EMBEDDING :=
  C1_embedding_selected_without_healthy_override gpt4_down req_embed_override
    rfl (by intro m hm; cases hm; rfl)

/-- C2 (counterexample): a request with an unhealthy `gpt-4` override and the
creativity flag set still gets routed to `gpt-4`, because the heuristic
ladder independently picks the same backend; so `select_model` can return the
overridden backend even when it is unhealthy. -/
theorem C2_counterexample :
    req_creative_override.model = some ModelType.GPT4 ∧
    gpt4_down ModelType.GPT4 = false ∧
    req_creative_override.task_type ≠ TaskType.EMBEDDING ∧
    select_model gpt4_down req_creative_override = ModelType.GPT4 := by
  exact ⟨rfl, rfl, by decide, rfl⟩

/-- C2 (amended): for every request with an unhealthy explicit override and a
non-embedding task type, `select_model` ignores the override and returns the
heuristic selection, which does not read the override field (but may
coincidentally equal the overridden backend). -/
theorem C2_unhealthy_override_falls_through
    (health : Health) (request : MCPRequest) (m : ModelType)
    (hm : request.model = some m) (hbad : health m = false)
    (htask : request.task_type ≠ TaskType.EMBEDDING) :
    select_model health request = intelligent_selection request ∧
    intelligent_selection request =
      intelligent_selection { request with model := none } := by
  constructor
  · exact select_model_eq_heuristic health request
      (by intro x hx; rw [hm] at hx; cases hx; exact hbad) htask
  · rfl

/-- C2 witness: the amended rule at the concrete unhealthy-override
request. -/
theorem C2_witness :
    select_model gpt4_down req_creative_override =
      intelligent_selection req_creative_override ∧
    intelligent_selection req_creative_override =
      intelligent_selection { req_creative_override with model := none } :=
  C2_unhealthy_override_falls_through gpt4_down req_creative_override
    ModelType.GPT4 rfl rfl (by decide)

/-- C3 (confirmed): a request with a healthy explicit override is routed to
exactly that backend, short-circuiting the embedding rule and the
creativity/reasoning rules. -/
theorem C3_healthy_override_short_circuits
    (health : Health) (request : MCPRequest) (m : ModelType)
    (hm : request.model = some m) (hh : health m = true) :
    select_model health request = m := by
  unfold select_model
  rw [hm]
  simp [is_model_healthy, hh]

/-- C3 witness: a healthy `claude-3-opus` override on a classification-task
request with both bias flags set is returned unchanged. -/
theorem C3_witness :
    select_model all_healthy req_opus_override = ModelType.CLAUDE_3_OPUS :=
  C3_healthy_override_short_circuits all_healthy req_opus_override
    ModelType.CLAUDE_3_OPUS rfl rfl

/-- C4 (confirmed): in heuristic selection (no healthy override,
non-embedding task), the creativity flag is checked first and selects
`gpt-4` for every task type, the reasoning flag is checked second and
selects `claude-3-opus`; moreover `gpt-4` has maximal creativity among the
backends declaring the general task, and `claude-3-opus` has maximal
reasoning among all backends. -/
theorem C4_heuristic_priority_order (health : Health) (request : MCPRequest)
    (hover : ∀ m, request.model = some m → health m = false)
    (htask : request.task_type ≠ TaskType.EMBEDDING) :
    (request.require_creativity = true →
      select_model health request = ModelType.GPT4) ∧
    (request.require_creativity = false → request.require_reasoning = true →
      select_model health request = ModelType.CLAUDE_3_OPUS) ∧
    (∀ m caps, capabilities_get m = some caps →
      TaskType.GENERAL ∈ caps.tasks →
      caps.creativity ≤ 9/10) ∧
    (∀ m caps, capabilities_get m = some caps → caps.reasoning ≤ 95/100) := by
  have hsel := select_model_eq_heuristic health request hover htask
  refine ⟨?_, ?_, ?_, ?_⟩
  · intro hc
    rw [hsel]
    unfold intelligent_selection
    simp [hc]
  · intro hc hr
    rw [hsel]
    unfold intelligent_selection
    simp [hc, hr]
  · intro m caps hcaps hmem
    cases m <;> (simp [capabilities_get] at hcaps) <;> subst hcaps <;>
      simp_all <;> norm_num
  · intro m caps hcaps
    cases m <;> (simp [capabilities_get] at hcaps) <;> subst hcaps <;>
      norm_num

/-- C4 witness: a classification-task request with the creativity flag set
selects `gpt-4`, not the classification backend. -/
theorem C4_witness :
    select_model all_healthy req_classify_creative = ModelType.GPT4 :=
  (C4_heuristic_priority_order all_healthy req_classify_creative
    (by intro m hm; cases hm) (by decide)).1 rfl

/-- C5 (code bug): the source guards the `max_tokens` rule with Python
truthiness (`if request.max_tokens and request.max_tokens <= 0`), so
`max_tokens = 0` skips the rule and the request validates, contradicting the
message of the rule itself that `max_tokens` must be positive; a negative
value does fail as documented. -/
theorem C5_truthiness_skips_zero_max_tokens :
    req_zero_tokens.max_tokens = some 0 ∧
    validate_request req_zero_tokens = (true, none) ∧
    validate_request { req_zero_tokens with max_tokens := some (-1) } =
      (false, some "max_tokens must be positive") := by
  refine ⟨rfl, ?_, ?_⟩ <;>
    norm_num [validate_request, req_zero_tokens, opt_int_truthy,
      (by decide : ("x" : String) ≠ "")]

/-- C6 (confirmed): the fallback graph maps each backend to exactly one
designated alternate (the embedding backend to none); `get_fallback_model`
returns the alternate exactly when it is currently healthy, never chains a
second hop, and is a pure function of the failed backend and the health
state. -/
theorem C6_fallback_one_hop (health : Health) (primary : ModelType) :
    (primary ≠ ModelType.EMBEDDING → (fallback_map primary).isSome = true) ∧
    fallback_map ModelType.EMBEDDING = none ∧
    get_fallback_model health ModelType.EMBEDDING = none ∧
    (∀ fb, fallback_map primary = some fb →
      get_fallback_model health primary =
        if health fb = true then some fb else none) ∧
    (∀ r, get_fallback_model health primary = some r →
      fallback_map primary = some r ∧ health r = true) := by
  refine ⟨?_, rfl, rfl, ?_, ?_⟩
  · intro hne
    cases primary <;> first | rfl | exact absurd rfl hne
  · intro fb hfb
    unfold get_fallback_model
    rw [hfb]
    rfl
  · intro r hr
    unfold get_fallback_model at hr
    cases hfb : fallback_map primary with
    | none => rw [hfb] at hr; exact Option.noConfusion hr
    | some fb =>
        rw [hfb] at hr
        by_cases hh : is_model_healthy health fb = true
        · simp [hh] at hr
          subst hr
          exact ⟨rfl, hh⟩
        · simp [hh] at hr

/-- C6 witness: `gpt-4` falls back to `claude-3-opus` when that alternate is
healthy, and to none when it is unhealthy. -/
theorem C6_witness :
    get_fallback_model all_healthy ModelType.GPT4 =
      some ModelType.CLAUDE_3_OPUS ∧
    get_fallback_model opus_down ModelType.GPT4 = none := by
  constructor
  · have h := (C6_fallback_one_hop all_healthy ModelType.GPT4).2.2.2.1
      ModelType.CLAUDE_3_OPUS rfl
    rw [h]
    rfl
  · have h := (C6_fallback_one_hop opus_down ModelType.GPT4).2.2.2.1
      ModelType.CLAUDE_3_OPUS rfl
    rw [h]
    rfl

/-- C7 (confirmed): `validate_routing_decision` fails on an unhealthy
selected backend; every backend has a capability entry (so the
unknown-backend failure branch is never taken in this table); with a healthy
backend it fails when `max_tokens` strictly exceeds the context window,
succeeds at the boundary `max_tokens = context_window`, and its result never
depends on the request task type (task mismatch is advisory only). -/
theorem C7_validate_routing_rules (health : Health) (request : MCPRequest)
    (selected : ModelType) :
    (capabilities_get selected).isSome = true ∧
    (health selected = false →
      (validate_routing_decision health request selected).1 = false) ∧
    (∀ caps n, capabilities_get selected = some caps →
      health selected = true → request.max_tokens = some n →
      caps.context_window < n →
      (validate_routing_decision health request selected).1 = false) ∧
    (∀ caps, capabilities_get selected = some caps →
      health selected = true →
      request.max_tokens = some caps.context_window →
      validate_routing_decision health request selected = (true, none)) ∧
    (∀ t, validate_routing_decision health
        { request with task_type := t } selected =
      validate_routing_decision health request selected) := by
  refine ⟨?_, ?_, ?_, ?_, ?_⟩
  · cases selected <;> rfl
  · intro hh
    simp [validate_routing_decision, is_model_healthy, hh]
  · intro caps n hcaps hh hmt hlt
    cases selected <;> (simp [capabilities_get] at hcaps) <;> subst hcaps <;>
      (simp [validate_routing_decision, is_model_healthy, hh, capabilities_get,
        hmt, opt_int_truthy] at hlt ⊢) <;>
      (have h0 : ¬ (n = 0) := by omega) <;> rw [if_pos (And.intro h0 hlt)]
  · intro caps hcaps hh hmt
    cases selected <;> (simp [capabilities_get] at hcaps) <;> subst hcaps <;>
      norm_num [validate_routing_decision, is_model_healthy, hh,
        capabilities_get, hmt, opt_int_truthy]
  · intro t
    rfl

/-- C7 witness: for `gpt-3.5-turbo` (window 16384) a request at the boundary
passes, one token above fails, and an unhealthy selection fails. -/
theorem C7_witness :
    validate_routing_decision all_healthy req_boundary
      ModelType.GPT35_TURBO = (true, none) ∧
    (validate_routing_decision all_healthy
      { req_boundary with max_tokens := some 16385 }
      ModelType.GPT35_TURBO).1 = false ∧
    (validate_routing_decision (fun _ => false) req_boundary
      ModelType.GPT35_TURBO).1 = false := by
  refine ⟨?_, ?_, ?_⟩
  · exact (C7_validate_routing_rules all_healthy req_boundary
      ModelType.GPT35_TURBO).2.2.2.1 _ rfl rfl rfl
  · exact (C7_validate_routing_rules all_healthy
      { req_boundary with max_tokens := some 16385 }
      ModelType.GPT35_TURBO).2.2.1 _ 16385 rfl rfl rfl (by norm_num)
  · exact (C7_validate_routing_rules (fun _ => false) req_boundary
      ModelType.GPT35_TURBO).2.1 rfl

/-- C8 (confirmed): an extraction-task request reaching the heuristic ladder
is routed by content length: at most 2000 characters selects
`gpt-3.5-turbo`, strictly more selects `claude-3-sonnet`. -/
theorem C8_extraction_branches_on_length
    (health : Health) (request : MCPRequest)
    (hover : ∀ m, request.model = some m → health m = false)
    (htask : request.task_type = TaskType.EXTRACTION)
    (hc : request.require_creativity = false)
    (hr : request.require_reasoning = false) :
    (request.content.length ≤ 2000 →
      select_model health request = ModelType.GPT35_TURBO) ∧
    (2000 < request.content.length →
      select_model health request = ModelType.CLAUDE_3_SONNET) := by
  have hsel := select_model_eq_heuristic health request hover
    (by rw [htask]; decide)
  rw [hsel]
  unfold intelligent_selection
  refine ⟨?_, ?_⟩ <;> intro hlen
  · have h2 : ¬ (request.content.length > 2000) := by omega
    simp [hc, hr, htask, h2]
  · simp [hc, hr, htask, hlen]

/-- C8 witness: 2500 characters of extraction content select
`claude-3-sonnet`; 500 characters select `gpt-3.5-turbo`. -/
theorem C8_witness :
    select_model all_healthy req_extract_long = ModelType.CLAUDE_3_SONNET ∧
    select_model all_healthy req_extract_short = ModelType.GPT35_TURBO := by
  constructor
  · exact (C8_extraction_branches_on_length all_healthy req_extract_long
      (by intro m hm; cases hm) rfl rfl rfl).2
      (by rw [show req_extract_long.content = long_content from rfl,
        long_content_length]; omega)
  · exact (C8_extraction_branches_on_length all_healthy req_extract_short
      (by intro m hm; cases hm) rfl rfl rfl).1
      (by rw [show req_extract_short.content = short_content from rfl,
        short_content_length]; omega)

/-- C10 (confirmed): with no explicit override and a non-embedding task
type, `select_model` never returns the embedding backend, whatever the
health state. -/
theorem C10_embedding_unreachable_without_override
    (health : Health) (request : MCPRequest)
    (hm : request.model = none)
    (ht : request.task_type ≠ TaskType.EMBEDDING) :
    select_model health request ≠ ModelType.EMBEDDING := by
  rw [select_model_eq_heuristic health request
    (by intro x hx; rw [hm] at hx; exact Option.noConfusion hx) ht]
  exact intelligent_selection_ne_embedding request

/-- C10 witness: a plain general-task request is not routed to the embedding
backend. -/
theorem C10_witness :
    select_model all_healthy req_plain ≠ ModelType.EMBEDDING :=
  C10_embedding_unreachable_without_override all_healthy req_plain rfl
    (by decide)

/-- C9 (counterexample): two distinct valid Requests, differing only in
`use_context`, serialize to the same transport dictionary (`to_dict` emits
neither `context` nor `use_context`), so no deserializer can restore every
field for both of them. -/
theorem C9_counterexample :
    MCPRequest.to_dict req_roundtrip_a = MCPRequest.to_dict req_roundtrip_b ∧
    req_roundtrip_a ≠ req_roundtrip_b ∧
    (validate_request req_roundtrip_a).1 = true ∧
    (validate_request req_roundtrip_b).1 = true := by
  refine ⟨rfl, ?_, ?_, ?_⟩
  · intro h
    have hu := congrArg MCPRequest.use_context h
    simp [req_roundtrip_a, req_roundtrip_b] at hu
  · norm_num [validate_request, req_roundtrip_a, opt_int_truthy,
      (by decide : ("hello" : String) ≠ "")]
  · norm_num [validate_request, req_roundtrip_b, req_roundtrip_a,
      opt_int_truthy, (by decide : ("hello" : String) ≠ "")]

/-- C9 (amended): serializing a Request or Response to its transport
dictionary and deserializing back preserves every transported field
(identifier, content, enum tags, flags, numeric fields, timestamp at the
serialization resolution, metadata); the `context` field and, for Requests,
`use_context` are not part of the transport shape and come back as the
construction defaults. -/
theorem C9_roundtrip_preserves_transport_fields :
    (∀ r : MCPRequest,
      MCPRequest.from_dict (MCPRequest.to_dict r) =
        some { r with context := none, use_context := true }) ∧
    (∀ p : MCPResponse,
      MCPResponse.from_dict (MCPResponse.to_dict p) =
        some { p with context := none }) := by
  constructor
  · intro r
    obtain ⟨rid, c, tt, mv, pv, rr, rc, mt, temp, ctx, uc, ce, ct, an, ts, md⟩ := r
    obtain ⟨tsi⟩ := ts
    cases mv <;> cases mt <;> cases an <;>
      simp [MCPRequest.to_dict, MCPRequest.from_dict, DateTime.isoformat,
        dget, as_str, as_int, as_rat, as_bool, as_dict, as_opt_model,
        as_opt_int, as_opt_str, task_of_value_task_value,
        model_of_value_model_value, priority_of_value_priority_value]
  · intro p
    obtain ⟨rid, c, mu, sc, lm, tu, cd, ctx, er, fu, fm, ts, md⟩ := p
    obtain ⟨tsi⟩ := ts
    cases er <;> cases fm <;>
      simp [MCPResponse.to_dict, MCPResponse.from_dict, DateTime.isoformat,
        dget, as_str, as_int, as_rat, as_bool, as_dict, as_opt_model,
        as_opt_str, model_of_value_model_value]

end MCP
